import Mathlib

/-!
Shallow embedding of src/alpy/api.py: the authenticated HTTP transport
with its error translation, the Entity field-access wrapper, and the
Account resource client with its path grammar.
-/

set_option autoImplicit false

namespace Alpy

/-- JSON values as produced by decoding a response body.  Objects are
association lists of distinct keys (decoded Python dicts); numbers are
modelled as integers, which covers every value the library and its spec
manipulate. -/
inductive JVal where
  | null
  | bool (b : Bool)
  | num (n : Int)
  | str (s : String)
  | arr (elems : List JVal)
  | obj (fields : List (String × JVal))

/-- A decoded JSON object: the RawRecord of the spec, a mapping from
field name to value. -/
def RawRecord : Type := List (String × JVal)

/-- Python dict key lookup on a decoded JSON object. -/
def lookupField (fs : List (String × JVal)) (k : String) : Option JVal :=
  match fs with
  | [] => none
  | (k2, v) :: rest => if k2 = k then some v else lookupField rest k

/-- Boolean test that a character list starts with another one
(Python substring machinery, used by the in operator on strings). -/
def startsWithChars (n h : List Char) : Bool :=
  match n, h with
  | [], _ => true
  | _ :: _, [] => false
  | a :: ns, b :: hs => a == b && startsWithChars ns hs

/-- The Python str.endswith test: the second string is a suffix of the
first.  Checked on reversed character lists. -/
def pyEndsWith (s suf : String) : Bool :=
  startsWithChars suf.data.reverse s.data.reverse

/-- Python str.upper on one character, for the ASCII letters the HTTP
method strings are made of. -/
def pyUpperChar (c : Char) : Char :=
  if 'a' ≤ c && c ≤ 'z' then Char.ofNat (c.toNat - 32) else c

/-- Python str.upper, as the request method applies it to the HTTP
method string. -/
def pyUpper (s : String) : String := ⟨s.data.map pyUpperChar⟩

/-- Boolean substring test on character lists. -/
def containsSub (n h : List Char) : Bool :=
  match h with
  | [] => startsWithChars n []
  | _ :: hs => startsWithChars n h || containsSub n hs

/-- The Python membership test needle in v, as it behaves on each kind of
decoded JSON value: key membership for dicts, element equality for lists,
substring test for strings, and a TypeError (modelled as none) for the
non-container values null, booleans and numbers. -/
def pyContains (needle : String) (v : JVal) : Option Bool :=
  match v with
  | .obj fs => some (lookupField fs needle).isSome
  | .arr xs => some (xs.any fun x => match x with | .str s => s == needle | _ => false)
  | .str s => some (containsSub needle.data s.data)
  | _ => none

/-- Statuses for which raise for status raises HTTPError: the client and
server error ranges.  Everything else is treated as success by the
transport. -/
def isErrorStatus (status : Nat) : Bool :=
  decide (400 ≤ status) && decide (status < 600)

/-- Outcome of one call to the transport request operation, given the
response status and decoded body (none when the body is not valid JSON).
ok is a normal return of the decoded body; apiError is the raised domain
error APIError carrying the decoded error body; decodeError is the
JSON decode failure raised by resp.json on a non-JSON body; keyError is
the KeyError raised while building APIError when the error body lacks a
message field; tyError is the TypeError raised by the membership test or
indexing on a non-dict error body. -/
inductive ReqResult where
  | ok (v : JVal)
  | apiError (err : JVal)
  | decodeError
  | keyError (k : String)
  | tyError

/-- The error-translation core of API, modelling the request method of
src/alpy/api.py: raise for status, and on HTTPError decode the body,
raise APIError when a code field is present (APIError construction reads
the message field first), and otherwise fall through to returning the
decoded body.  On success statuses the decoded body is returned. -/
def request (status : Nat) (body : Option JVal) : ReqResult :=
  if isErrorStatus status then
    match body with
    | none => .decodeError
    | some err =>
      match pyContains "code" err with
      | none => .tyError
      | some false => .ok err
      | some true =>
        match err with
        | .obj fs =>
          match lookupField fs "message" with
          | some _ => .apiError (.obj fs)
          | none => .keyError "message"
        | _ => .tyError
  else
    match body with
    | none => .decodeError
    | some v => .ok v

/-- The code carried by a raised APIError: its code property reads the
code field of the stored error body. -/
def apiErrorCode (err : JVal) : Option JVal :=
  match err with
  | .obj fs => lookupField fs "code"
  | _ => none

/-- The description of a raised APIError: its constructor passes the
message field of the error body to the underlying exception. -/
def apiErrorDescription (err : JVal) : Option JVal :=
  match err with
  | .obj fs => lookupField fs "message"
  | _ => none

/-- The regular expression ISO8601YMD anchored at the start of a string:
four digits, hyphen, two digits, hyphen, two digits, then the letter T.
The digit class is taken as the ASCII decimal digits, which is what every
server-supplied timestamp uses. -/
def iso8601Match (s : String) : Bool :=
  match s.data with
  | a :: b :: c :: d :: e :: f :: g :: h :: i :: j :: k :: _ =>
      a.isDigit && b.isDigit && c.isDigit && d.isDigit && e == '-' &&
      f.isDigit && g.isDigit && h == '-' && i.isDigit && j.isDigit && k == 'T'
  | _ => false

/-- Outcome of Entity attribute access through getattr: raw passes the
stored JSON value through unchanged; timestamp s is the value returned by
handing the string s to the external dateutil parser; tyError is the
TypeError raised when the regular expression is matched against a value
that is not a string; attrError is the AttributeError naming the
requested field, raised when the field is absent from the record. -/
inductive GetattrResult where
  | raw (v : JVal)
  | timestamp (s : String)
  | tyError
  | attrError (name : String)

/-- The getattr hook of Entity: a present field whose name ends in the
suffix and whose string value matches ISO8601YMD at its start is parsed
as a timestamp; any other present field is returned raw, except that
matching the regular expression against a non-string value raises
TypeError; an absent field becomes an AttributeError naming it. -/
def entityGetattr (obj : RawRecord) (key : String) : GetattrResult :=
  match lookupField obj key with
  | some val =>
    if pyEndsWith key "_at" then
      match val with
      | .str s => if iso8601Match s then .timestamp s else .raw val
      | _ => .tyError
    else .raw val
  | none => .attrError key

/-- One HTTP call as issued by the resource client through the transport:
the method string handed to the session, the path appended to the base
URL, and the optional data mapping. -/
structure HttpCall where
  method : String
  path : String
  data : Option JVal

/-- The keyword options the transport builds for the session: data goes
into the query parameters for GET and into the JSON body otherwise
(method compared after uppercasing, as the source does). -/
structure RequestOpts where
  params : Option JVal
  jsonBody : Option JVal

/-- Placement of the data mapping in the request method of API: the
params keyword for GET, the json body keyword for every other method. -/
def buildOpts (method : String) (data : Option JVal) : RequestOpts :=
  if pyUpper method = "GET" then ⟨data, none⟩ else ⟨none, data⟩

/-- The scoped-path builder of Account, with the version string passed
explicitly (the source default is the string 1, see fullpathDefault). -/
def fullpath (account_id : String) (path : String) (v : String) : String :=
  "/api/v" ++ v ++ "/accounts/" ++ account_id ++ path

/-- The scoped-path builder as every caller in the source uses it: the
version argument left at its default. -/
def fullpathDefault (account_id : String) (path : String) : String :=
  fullpath account_id path "1"

/-- An Account entity: the wrapped record and the account identifier the
constructor extracts from its id field. -/
structure AccountE where
  raw : RawRecord
  account_id : JVal

/-- Account construction from one decoded response element: the record
must be a JSON object carrying an id field, which the constructor reads;
a missing id or a non-object element raises (modelled as none). -/
def mkAccount (o : JVal) : Option AccountE :=
  match o with
  | .obj fs => (lookupField fs "id").map fun i => ⟨fs, i⟩
  | _ => none

/-- The list comprehension in list_accounts: wrap each element of the
decoded response array as an Account, in order, propagating any
construction failure. -/
def wrapAccounts : List JVal → Option (List AccountE)
  | [] => some []
  | o :: rest => do
      let a ← mkAccount o
      let tail ← wrapAccounts rest
      return a :: tail

/-- The call issued by list_accounts. -/
def listAccountsCall : HttpCall :=
  { method := "GET", path := "/api/v1/accounts", data := none }

/-- An Order entity wraps the decoded response verbatim. -/
structure OrderE where
  raw : JVal

/-- The request body dict built by create_order, in source order; the
three optional parameters default to None, serialized as JSON null. -/
def createOrderData (assert_id shares side type timeinforce : JVal)
    (limit_price stop_price client_order_id : Option JVal) :
    List (String × JVal) :=
  [("assert_id", assert_id), ("shares", shares), ("side", side),
   ("type", type), ("timeinforce", timeinforce),
   ("limit_price", limit_price.getD .null),
   ("stop_price", stop_price.getD .null),
   ("client_order_id", client_order_id.getD .null)]

/-- The call issued by create_order: a POST to the scoped orders path
with the whole dict as the body. -/
def createOrderCall (account_id : String)
    (assert_id shares side type timeinforce : JVal)
    (limit_price stop_price client_order_id : Option JVal) : HttpCall :=
  { method := "POST"
    path := fullpathDefault account_id "/orders"
    data := some (.obj (createOrderData assert_id shares side type
      timeinforce limit_price stop_price client_order_id)) }

/-- The call issued by get_order: a GET to a path formatted directly in
the method, without going through the scoped-path builder. -/
def getOrderCall (account_id : String) (order_id : String) : HttpCall :=
  { method := "GET"
    path := "/api/v1/" ++ account_id ++ "/orders/" ++ order_id
    data := none }

/-- get_order wraps the decoded response as a single Order. -/
def getOrderWrap (resp : JVal) : OrderE := ⟨resp⟩

/-- The attributes the Account wrapper itself defines: the instance
attributes set by the two constructors and the methods of the class.
Python attribute lookup finds these before ever consulting the getattr
hook, which only runs after normal lookup fails. -/
def accountOwnAttrs : List String :=
  ["_obj", "_api", "_account_id",
   "_fullpath", "get", "post", "delete",
   "list_orders", "create_order", "get_order",
   "get_order_by_client_order_id", "delete_order",
   "list_positions", "get_position"]

/-- The attributes the plain Entity wrapper itself defines on each
instance. -/
def entityOwnAttrs : List String := ["_obj"]

/-- Result of the full Python attribute protocol on a wrapper: either
the wrapper resolves the name to one of its own attributes or methods,
or normal lookup fails and the getattr hook runs over the record. -/
inductive AttrAccess where
  | own (name : String)
  | viaGetattr (r : GetattrResult)

/-- Attribute access on an Account: names the wrapper defines win over
record fields; only other names reach the getattr hook. -/
def accountAttrLookup (obj : RawRecord) (name : String) : AttrAccess :=
  if name ∈ accountOwnAttrs then .own name
  else .viaGetattr (entityGetattr obj name)

/-- Attribute access on a plain Entity (Order, Position). -/
def entityAttrLookup (obj : RawRecord) (name : String) : AttrAccess :=
  if name ∈ entityOwnAttrs then .own name
  else .viaGetattr (entityGetattr obj name)

/-! ## Theorems about the claims -/

/-- C1: the claim says that an error-status response whose body decodes
to a JSON object with no code field surfaces the HTTP failure as a
transport error.  The code does not: the except block swallows the
HTTPError (the bound exception variable is never re-raised) and the
decoded error body is returned as the normal success value.  At status
500 with a codeless JSON body the request returns the body; only the
non-JSON-body sub-case raises at all, and what it raises is the JSON
decode failure. -/
theorem request_swallows_codeless_error_body :
    request 500 (some (.obj [("message", .str "oops")])) =
      .ok (.obj [("message", .str "oops")]) ∧
    request 500 none = .decodeError :=
  ⟨rfl, rfl⟩

/-- C2: an error-status response whose body decodes to a JSON object
carrying a code field (and its message field) raises a domain error
APIError that carries that code, with the message field as its
description. -/
theorem request_domain_error_carries_code (status : Nat)
    (fs : List (String × JVal)) (c m : JVal)
    (herr : isErrorStatus status = true)
    (hc : lookupField fs "code" = some c)
    (hm : lookupField fs "message" = some m) :
    request status (some (.obj fs)) = .apiError (.obj fs) ∧
    apiErrorCode (.obj fs) = some c ∧
    apiErrorDescription (.obj fs) = some m := by
  refine ⟨?_, hc, hm⟩
  simp [request, herr, pyContains, hc, hm]

/-- Witness for C2: the 422 insufficient-buying-power example. -/
theorem request_domain_error_carries_code_422 :
    request 422
      (some (.obj [("code", .num 40110000),
                   ("message", .str "insufficient buying power")])) =
      .apiError (.obj [("code", .num 40110000),
                       ("message", .str "insufficient buying power")]) ∧
    apiErrorCode (.obj [("code", .num 40110000),
                        ("message", .str "insufficient buying power")]) =
      some (.num 40110000) ∧
    apiErrorDescription (.obj [("code", .num 40110000),
                               ("message", .str "insufficient buying power")]) =
      some (.str "insufficient buying power") :=
  request_domain_error_carries_code 422 _ _ _ rfl rfl rfl

/-- C4: accessing a field absent from the record raises an
AttributeError naming the requested field. -/
theorem entityGetattr_absent (obj : RawRecord) (key : String)
    (h : lookupField obj key = none) :
    entityGetattr obj key = .attrError key := by
  unfold entityGetattr
  rw [h]

/-- Witness for C4: a record without the requested field. -/
theorem entityGetattr_absent_example :
    entityGetattr [("id", .str "a1")] "shares" = .attrError "shares" :=
  entityGetattr_absent [("id", .str "a1")] "shares" rfl

/-- C5: data placement in the transport: for a method that uppercases to
GET the data mapping becomes the query parameters and no body is sent;
for any other method the data mapping becomes the whole JSON body and no
query parameters are sent. -/
theorem buildOpts_placement (method : String) (data : Option JVal) :
    (pyUpper method = "GET" → buildOpts method data = ⟨data, none⟩) ∧
    (pyUpper method ≠ "GET" → buildOpts method data = ⟨none, data⟩) := by
  constructor <;> intro h <;> simp [buildOpts, h]

/-- Witness for C5: a lowercase GET keeps data in the query parameters;
a POST keeps data in the body. -/
theorem buildOpts_placement_examples :
    buildOpts "get" (some (.str "q")) = ⟨some (.str "q"), none⟩ ∧
    buildOpts "Post" (some (.str "q")) = ⟨none, some (.str "q")⟩ :=
  ⟨(buildOpts_placement "get" (some (.str "q"))).1 rfl,
   (buildOpts_placement "Post" (some (.str "q"))).2 (by decide)⟩

/-- C6: create_order called without the three optional arguments still
sends a POST whose body carries limit_price, stop_price and
client_order_id, each bound to JSON null rather than omitted. -/
theorem createOrder_optional_fields_null (account_id : String)
    (assert_id shares side type timeinforce : JVal) :
    (createOrderCall account_id assert_id shares side type timeinforce
        none none none).method = "POST" ∧
    (createOrderCall account_id assert_id shares side type timeinforce
        none none none).data =
      some (.obj (createOrderData assert_id shares side type timeinforce
        none none none)) ∧
    lookupField (createOrderData assert_id shares side type timeinforce
        none none none) "limit_price" = some .null ∧
    lookupField (createOrderData assert_id shares side type timeinforce
        none none none) "stop_price" = some .null ∧
    lookupField (createOrderData assert_id shares side type timeinforce
        none none none) "client_order_id" = some .null :=
  ⟨rfl, rfl, rfl, rfl, rfl⟩

/-- C7: the scoped path grammar is the /api/v prefix, the version, the
accounts segment, the account identifier and the sub-path, with the
version defaulting to 1; on account acct123 and sub-path /orders it
yields /api/v1/accounts/acct123/orders. -/
theorem fullpath_grammar (account_id path v : String) :
    fullpath account_id path v =
      "/api/v" ++ v ++ "/accounts/" ++ account_id ++ path ∧
    fullpathDefault account_id path = fullpath account_id path "1" ∧
    fullpathDefault "acct123" "/orders" = "/api/v1/accounts/acct123/orders" :=
  ⟨rfl, rfl, rfl⟩

/-- C3 counterexample: the claim says every present field other than a
matching timestamp string is returned raw, including suffix fields whose
value does not match the pattern.  A suffix field holding JSON null is
such a field, yet access raises TypeError (the regular expression is
matched against a non-string), not the raw null. -/
theorem entityGetattr_at_null_not_raw :
    entityGetattr [("updated_at", .null)] "updated_at" = .tyError ∧
    entityGetattr [("updated_at", .null)] "updated_at" ≠ .raw .null :=
  ⟨rfl, fun h => GetattrResult.noConfusion h⟩

/-- C3 amended: a present field whose name ends in the suffix and whose
value is a string matching the pattern at its start is returned parsed
as a timestamp; a present field whose name does not end in the suffix,
or whose string value does not match the pattern, is returned raw; a
present suffix field whose value is not a string raises TypeError. -/
theorem entityGetattr_decoding (obj : RawRecord) (key : String) (val : JVal)
    (h : lookupField obj key = some val) :
    (∀ s, val = .str s → pyEndsWith key "_at" = true →
      iso8601Match s = true → entityGetattr obj key = .timestamp s) ∧
    (pyEndsWith key "_at" = false → entityGetattr obj key = .raw val) ∧
    (∀ s, val = .str s → iso8601Match s = false →
      entityGetattr obj key = .raw val) ∧
    ((∀ s, val ≠ .str s) → pyEndsWith key "_at" = true →
      entityGetattr obj key = .tyError) := by
  unfold entityGetattr
  rw [h]
  refine ⟨?_, ?_, ?_, ?_⟩
  · rintro s rfl he hm
    simp [he, hm]
  · intro he
    simp [he]
  · rintro s rfl hm
    cases he : pyEndsWith key "_at" <;> simp [hm]
  · intro hns he
    cases val with
    | str s => exact absurd rfl (hns s)
    | null => simp [he]
    | bool b => simp [he]
    | num n => simp [he]
    | arr xs => simp [he]
    | obj fs => simp [he]

/-- Witness for C3 amended: a matching timestamp field is parsed, a
field without the suffix passes through raw, and a suffix field whose
string value does not match the pattern passes through raw. -/
theorem entityGetattr_decoding_examples :
    entityGetattr [("created_at", .str "2018-01-03T09:30:00-04:00")]
        "created_at" = .timestamp "2018-01-03T09:30:00-04:00" ∧
    entityGetattr [("shares", .num 5)] "shares" = .raw (.num 5) ∧
    entityGetattr [("note_at", .str "soon")] "note_at" =
      .raw (.str "soon") :=
  ⟨(entityGetattr_decoding [("created_at", .str "2018-01-03T09:30:00-04:00")]
      "created_at" (.str "2018-01-03T09:30:00-04:00") rfl).1 _ rfl rfl (by decide),
   (entityGetattr_decoding [("shares", .num 5)] "shares" (.num 5) rfl).2.1 rfl,
   (entityGetattr_decoding [("note_at", .str "soon")] "note_at"
      (.str "soon") rfl).2.2.1 _ rfl (by decide)⟩

/-- C8: get_order issues a GET with no data to the path built from the
/api/v1/ prefix, the account identifier, the /orders/ segment and the
order identifier — a path that differs from what the scoped-path builder
used by every sibling operation would give, because it lacks the
accounts segment — and wraps the decoded response as a single Order. -/
theorem getOrder_call_shape (account_id order_id : String) (resp : JVal) :
    getOrderCall account_id order_id =
      { method := "GET"
        path := "/api/v1/" ++ account_id ++ "/orders/" ++ order_id
        data := none } ∧
    (getOrderCall account_id order_id).path ≠
      fullpathDefault account_id ("/orders/" ++ order_id) ∧
    getOrderWrap resp = ⟨resp⟩ := by
  refine ⟨rfl, ?_, rfl⟩
  intro h
  have hl := congrArg String.length h
  simp only [getOrderCall, fullpathDefault, fullpath,
    String.length_append] at hl
  have e1 : ("/api/v1/" : String).length = 8 := rfl
  have e2 : ("/orders/" : String).length = 8 := rfl
  have e3 : ("/api/v" : String).length = 6 := rfl
  have e4 : ("1" : String).length = 1 := rfl
  have e5 : ("/accounts/" : String).length = 10 := rfl
  rw [e1, e2, e3, e4, e5] at hl
  omega

/-- A successfully constructed Account wraps exactly the element it was
built from. -/
theorem mkAccount_raw (o : JVal) (a : AccountE) (h : mkAccount o = some a) :
    JVal.obj a.raw = o := by
  cases o with
  | obj fs =>
    simp only [mkAccount] at h
    cases hl : lookupField fs "id" with
    | none => rw [hl] at h; exact Option.noConfusion h
    | some i =>
      rw [hl] at h
      simp at h
      rw [← h]
  | null => exact Option.noConfusion h
  | bool b => exact Option.noConfusion h
  | num n => exact Option.noConfusion h
  | str s => exact Option.noConfusion h
  | arr xs => exact Option.noConfusion h

/-- C9: when wrapping a decoded response array succeeds, list_accounts
returns as many Accounts as the array has elements, in the same order,
each wrapping the corresponding element; and the call it issues is a GET
of the top-level accounts path. -/
theorem wrapAccounts_preserves_order (resp : List JVal)
    (accs : List AccountE) (h : wrapAccounts resp = some accs) :
    accs.length = resp.length ∧
    accs.map (fun a => JVal.obj a.raw) = resp ∧
    listAccountsCall = { method := "GET", path := "/api/v1/accounts", data := none } := by
  refine ⟨?_, ?_, rfl⟩ <;>
  · induction resp generalizing accs with
    | nil =>
      unfold wrapAccounts at h
      cases h
      simp
    | cons o rest ih =>
      unfold wrapAccounts at h
      cases ho : mkAccount o with
      | none => rw [ho] at h; exact Option.noConfusion h
      | some a =>
        rw [ho] at h
        cases ht : wrapAccounts rest with
        | none => rw [ht] at h; exact Option.noConfusion h
        | some tl =>
          rw [ht] at h
          simp at h
          rw [← h]
          simp [ih tl ht, mkAccount_raw o a ho]

/-- Witness for C9: the two-element body from the spec example wraps to
two Accounts, in order, whose id fields read back as a1 and a2. -/
theorem wrapAccounts_preserves_order_example :
    wrapAccounts [.obj [("id", .str "a1")], .obj [("id", .str "a2")]] =
      some [⟨[("id", .str "a1")], .str "a1"⟩, ⟨[("id", .str "a2")], .str "a2"⟩] ∧
    ([⟨[("id", .str "a1")], .str "a1"⟩,
      ⟨[("id", .str "a2")], .str "a2"⟩] : List AccountE).map
        (fun a => JVal.obj a.raw) =
      [.obj [("id", .str "a1")], .obj [("id", .str "a2")]] ∧
    entityGetattr [("id", .str "a1")] "id" = .raw (.str "a1") ∧
    entityGetattr [("id", .str "a2")] "id" = .raw (.str "a2") :=
  ⟨rfl,
   (wrapAccounts_preserves_order
      [.obj [("id", .str "a1")], .obj [("id", .str "a2")]]
      [⟨[("id", .str "a1")], .str "a1"⟩, ⟨[("id", .str "a2")], .str "a2"⟩]
      rfl).2.1,
   rfl, rfl⟩

/-- C10: a record field whose name is one of the attributes the Account
wrapper itself defines resolves to the wrapper attribute: the getattr
hook never runs for it, so the record field is unreachable through
attribute access; likewise on a plain Entity for its own attribute. -/
theorem shadowed_fields_unreachable (obj : RawRecord) (name : String)
    (_hfield : (lookupField obj name).isSome = true)
    (hmem : name ∈ accountOwnAttrs) :
    accountAttrLookup obj name = .own name ∧
    (∀ r, accountAttrLookup obj name ≠ .viaGetattr r) ∧
    (name ∈ entityOwnAttrs → entityAttrLookup obj name = .own name ∧
      ∀ r, entityAttrLookup obj name ≠ .viaGetattr r) := by
  refine ⟨?_, ?_, fun he => ⟨?_, ?_⟩⟩
  · unfold accountAttrLookup
    rw [if_pos hmem]
  · intro r hr
    unfold accountAttrLookup at hr
    rw [if_pos hmem] at hr
    exact AttrAccess.noConfusion hr
  · unfold entityAttrLookup
    rw [if_pos he]
  · intro r hr
    unfold entityAttrLookup at hr
    rw [if_pos he] at hr
    exact AttrAccess.noConfusion hr

/-- Witness for C10: a record that tries to shadow the get method and
the record slot itself; both resolve to the wrapper, not the record. -/
theorem shadowed_fields_unreachable_example :
    accountAttrLookup [("get", .str "shadow"), ("_obj", .str "shadow")]
      "get" = .own "get" ∧
    accountAttrLookup [("get", .str "shadow"), ("_obj", .str "shadow")]
      "_obj" = .own "_obj" ∧
    entityAttrLookup [("get", .str "shadow"), ("_obj", .str "shadow")]
      "_obj" = .own "_obj" :=
  ⟨(shadowed_fields_unreachable
      [("get", .str "shadow"), ("_obj", .str "shadow")] "get"
      rfl (by decide)).1,
   (shadowed_fields_unreachable
      [("get", .str "shadow"), ("_obj", .str "shadow")] "_obj"
      rfl (by decide)).1,
   ((shadowed_fields_unreachable
      [("get", .str "shadow"), ("_obj", .str "shadow")] "_obj"
      rfl (by decide)).2.2 (by decide)).1⟩

end Alpy
